import Mathlib

/-!
Shallow embedding of the SD-card peripheral emulation (src/sd.rs) of the
retro Z80 emulator.  Host files are modelled as byte lists carried inside the
open handle; the host filesystem is an association list from filename bytes to
content bytes; guest memory is a function from addresses to byte values.
-/

namespace RetroSd

-- I/O port numbers (src/sd.rs lines 12-23)
def SD_CMD_PORT : Nat := 0x10
def SD_STATUS_PORT : Nat := 0x11
def SD_DATA_PORT : Nat := 0x12
def SD_FNAME_PORT : Nat := 0x13
def SD_SEEK_LO : Nat := 0x14
def SD_SEEK_HI : Nat := 0x15
def SD_DMA_LO : Nat := 0x16
def SD_DMA_HI : Nat := 0x17
def SD_BLOCK_CMD : Nat := 0x18
def SD_SEEK_EX : Nat := 0x19

def BLOCK_SIZE : Nat := 128

-- SD commands (src/sd.rs lines 29-37)
def CMD_OPEN_READ : Nat := 0x01
def CMD_CREATE : Nat := 0x02
def CMD_OPEN_APPEND : Nat := 0x03
def CMD_SEEK_START : Nat := 0x04
def CMD_CLOSE : Nat := 0x05
def CMD_DIR : Nat := 0x06
def CMD_OPEN_RW : Nat := 0x07
def CMD_SEEK_BYTE : Nat := 0x08
def CMD_SEEK_16 : Nat := 0x09

-- Status bits (src/sd.rs lines 40-42)
def STATUS_READY : Nat := 0x01
def STATUS_ERROR : Nat := 0x02
def STATUS_DATA : Nat := 0x80

/-- Model of an open host file handle (std::fs::File): the current content of
the underlying host file, the byte cursor, and the access mode the handle was
opened with.  File::open gives a readable non-writable handle, File::create a
writable non-readable handle, OpenOptions read(true).write(true) both. -/
structure SdFile where
  content : List Nat
  pos : Nat
  readable : Bool
  writable : Bool
deriving DecidableEq, Repr

/-- Mirror of struct SdState (src/sd.rs lines 45-57).  Filenames and directory
entry text are byte lists. -/
structure SdState where
  filename : List Nat
  filename_pos : Nat
  file : Option SdFile
  status : Nat
  dir : Option (List (List Nat))
  dir_entry : List Nat
  dir_entry_pos : Nat
  seek_pos : Nat
  dma_addr : Nat
  block_status : Nat
deriving DecidableEq, Repr

/-- Mirror of impl Default for SdState (src/sd.rs lines 59-74). -/
def SdState.default : SdState :=
  { filename := []
    filename_pos := 0
    file := none
    status := STATUS_READY
    dir := none
    dir_entry := []
    dir_entry_pos := 0
    seek_pos := 0
    dma_addr := 0x0080
    block_status := 0 }

/-- The peripheral together with its environment: the host filesystem under the
storage root (filename bytes paired with content bytes, enumeration order being
the list order) and the optionally bound guest memory accessor (cpu_mem). -/
structure SdWorld where
  state : SdState
  fs : List (List Nat × List Nat)
  mem : Option (Nat → Nat)

def initWorld (fs : List (List Nat × List Nat)) (mem : Option (Nat → Nat)) : SdWorld :=
  { state := SdState.default, fs := fs, mem := mem }

/-- Writing one byte at position p of a host file, zero-extending the content
when the cursor sits past the current end (sparse-file semantics of seek past
end followed by write). -/
def listWriteByte (l : List Nat) (p : Nat) (b : Nat) : List Nat :=
  (l ++ List.replicate (p + 1 - l.length) 0).set p b

/-- Writing a sequence of bytes at consecutive positions starting at p. -/
def listWriteBytes (l : List Nat) (p : Nat) : List Nat → List Nat
  | [] => l
  | b :: rest => listWriteBytes (listWriteByte l p b) (p + 1) rest

/-- Model of file.read_exact on a 1-byte buffer (src/sd.rs line 226): fails when
the handle is not readable or the stream is exhausted, otherwise yields the next
byte and advances the cursor. -/
def readExact1 (f : SdFile) : Option (Nat × SdFile) :=
  if f.readable = true ∧ f.pos < f.content.length then
    some (f.content.getD f.pos 0, { f with pos := f.pos + 1 })
  else none

/-- Model of file.write_all on a 1-byte buffer (src/sd.rs line 289): fails when
the handle is not writable, otherwise writes at the cursor and advances it. -/
def writeAll1 (f : SdFile) (b : Nat) : Option SdFile :=
  if f.writable = true then
    some { f with content := listWriteByte f.content f.pos b, pos := f.pos + 1 }
  else none

/-- Model of file.read into a BLOCK_SIZE buffer (src/sd.rs line 118): fails on a
non-readable handle, otherwise returns up to BLOCK_SIZE bytes from the cursor
(possibly zero of them at end of file) and advances the cursor by the number of
bytes actually read. -/
def fileReadBlock (f : SdFile) : Option (List Nat × SdFile) :=
  if f.readable = true then
    some ((f.content.drop f.pos).take BLOCK_SIZE,
          { f with pos := f.pos + min BLOCK_SIZE (f.content.length - f.pos) })
  else none

/-- Model of file.write_all on a full buffer (src/sd.rs line 184): fails on a
non-writable handle, otherwise writes every byte at the cursor. -/
def fileWriteBlock (f : SdFile) (bytes : List Nat) : Option SdFile :=
  if f.writable = true then
    some { f with content := listWriteBytes f.content f.pos bytes,
                  pos := f.pos + bytes.length }
  else none

/-- Guest memory single-byte store (rz80 Memory::w8). -/
def memW8 (m : Nat → Nat) (a v : Nat) : Nat → Nat :=
  fun x => if x = a then v else m x

/-- The store loop of do_block_read (src/sd.rs lines 129-136): byte i of the
buffer goes to address dma+i when that address is below 0x10000 and is silently
skipped otherwise. -/
def writeMemBytes (m : Nat → Nat) (a : Nat) : List Nat → (Nat → Nat)
  | [] => m
  | b :: rest => writeMemBytes (if a < 0x10000 then memW8 m a b else m) (a + 1) rest

/-- The load loop of do_block_write (src/sd.rs lines 175-182): buffer byte i is
the guest byte at dma+i when that address is below 0x10000 and stays at the
zero the buffer was initialised with otherwise. -/
def readMemBytes (m : Nat → Nat) (a : Nat) : Nat → List Nat
  | 0 => []
  | n + 1 => (if a < 0x10000 then m a % 256 else 0) :: readMemBytes m (a + 1) n

/-- Lookup of a host file under the storage root (File::open succeeding exactly
when the file exists). -/
def fsLookup : List (List Nat × List Nat) → List Nat → Option (List Nat)
  | [], _ => none
  | (k, v) :: rest, name => if k = name then some v else fsLookup rest name

/-- Creation or truncation of a host file (File::create). -/
def fsInsert : List (List Nat × List Nat) → List Nat → List Nat → List (List Nat × List Nat)
  | [], name, v => [(name, v)]
  | (k, w) :: rest, name, v =>
      if k = name then (k, v) :: rest else (k, w) :: fsInsert rest name v

/-- The entry-fetch loop of the directory branch of read_port (src/sd.rs lines
240-263): takes the next raw entry, skipping names that are exactly "." or
"..", and returns it with the remaining entries; none at end of enumeration. -/
def dirNextEntry : List (List Nat) → Option (List Nat × List (List Nat))
  | [] => none
  | name :: rest =>
      if name = [46] ∨ name = [46, 46] then dirNextEntry rest
      else some (name, rest)

/-- Mirror of SdCard::handle_command (src/sd.rs lines 347-489).  Each branch is
the net effect of the corresponding match arm; fs::create_dir_all is a no-op on
the modelled filesystem and read_dir succeeds, yielding the filenames in list
order. -/
def handle_command (w : SdWorld) (cmd : Nat) : SdWorld :=
  let st := w.state
  if cmd = CMD_OPEN_READ then
    match fsLookup w.fs st.filename with
    | some content =>
        { w with state := { st with file := some ⟨content, 0, true, false⟩,
                                    status := STATUS_READY, filename := [] } }
    | none =>
        { w with state := { st with file := none,
                                    status := STATUS_ERROR ||| STATUS_READY,
                                    filename := [] } }
  else if cmd = CMD_CREATE then
    { w with
      state := { st with file := some ⟨[], 0, false, true⟩,
                         status := STATUS_READY, filename := [] },
      fs := fsInsert w.fs st.filename [] }
  else if cmd = CMD_OPEN_APPEND then
    match fsLookup w.fs st.filename with
    | some content =>
        { w with state := { st with file := some ⟨content, content.length, true, true⟩,
                                    status := STATUS_READY, filename := [] } }
    | none =>
        { w with state := { st with file := none,
                                    status := STATUS_ERROR ||| STATUS_READY,
                                    filename := [] } }
  else if cmd = CMD_SEEK_START then
    match st.file with
    | some f =>
        { w with state := { st with file := some { f with pos := 0 },
                                    status := STATUS_READY } }
    | none =>
        { w with state := { st with status := STATUS_ERROR ||| STATUS_READY } }
  else if cmd = CMD_CLOSE then
    { w with state := { st with file := none, dir := none, status := STATUS_READY } }
  else if cmd = CMD_DIR then
    { w with state := { st with dir := some (w.fs.map Prod.fst),
                                dir_entry := [], dir_entry_pos := 0,
                                status := STATUS_READY } }
  else if cmd = CMD_OPEN_RW then
    match fsLookup w.fs st.filename with
    | some content =>
        { w with state := { st with file := some ⟨content, 0, true, true⟩,
                                    status := STATUS_READY, filename := [] } }
    | none =>
        { w with state := { st with file := none,
                                    status := STATUS_ERROR ||| STATUS_READY,
                                    filename := [] } }
  else if cmd = CMD_SEEK_BYTE ∨ cmd = CMD_SEEK_16 then
    match st.file with
    | some f =>
        { w with state := { st with file := some { f with pos := st.seek_pos },
                                    status := STATUS_READY } }
    | none =>
        { w with state := { st with status := STATUS_ERROR ||| STATUS_READY } }
  else w

/-- Mirror of SdCard::do_block_read (src/sd.rs lines 106-156). -/
def do_block_read (w : SdWorld) : SdWorld :=
  match w.mem with
  | none => { w with state := { w.state with block_status := 1 } }
  | some m =>
      match w.state.file with
      | some f =>
          match fileReadBlock f with
          | some (bytes, f2) =>
              let buffer := bytes ++ List.replicate (BLOCK_SIZE - bytes.length) 0
              { w with
                state := { w.state with file := some f2, block_status := 0 },
                mem := some (writeMemBytes m w.state.dma_addr buffer) }
          | none => { w with state := { w.state with block_status := 1 } }
      | none => { w with state := { w.state with block_status := 1 } }

/-- Mirror of SdCard::do_block_write (src/sd.rs lines 159-204). -/
def do_block_write (w : SdWorld) : SdWorld :=
  match w.mem with
  | none => { w with state := { w.state with block_status := 1 } }
  | some m =>
      match w.state.file with
      | some f =>
          match fileWriteBlock f (readMemBytes m w.state.dma_addr BLOCK_SIZE) with
          | some f2 => { w with state := { w.state with file := some f2, block_status := 0 } }
          | none => { w with state := { w.state with block_status := 1 } }
      | none => { w with state := { w.state with block_status := 1 } }

/-- Mirror of SdCard::read_port (src/sd.rs lines 211-277), returning the byte
and the successor world. -/
def read_port (w : SdWorld) (port : Nat) : Nat × SdWorld :=
  let st := w.state
  if port = SD_STATUS_PORT then
    (st.status ||| (if st.file.isSome || st.dir.isSome then STATUS_DATA else 0), w)
  else if port = SD_DATA_PORT then
    match st.file with
    | some f =>
        match readExact1 f with
        | some (b, f2) => (b, { w with state := { st with file := some f2 } })
        | none => (0, { w with state := { st with file := none, status := STATUS_READY } })
    | none =>
        match st.dir with
        | some entries =>
            if st.dir_entry.length ≤ st.dir_entry_pos then
              match dirNextEntry entries with
              | some (name, rest) =>
                  ((name ++ [13, 10]).getD 0 0,
                   { w with state := { st with dir := some rest,
                                               dir_entry := name ++ [13, 10],
                                               dir_entry_pos := 1 } })
              | none =>
                  (0, { w with state := { st with dir := none, status := STATUS_READY } })
            else
              (st.dir_entry.getD st.dir_entry_pos 0,
               { w with state := { st with dir_entry_pos := st.dir_entry_pos + 1 } })
        | none => (0, w)
  else if port = SD_BLOCK_CMD then
    (st.block_status, w)
  else
    (0xFF, w)

/-- Mirror of SdCard::write_port (src/sd.rs lines 280-345). -/
def write_port (w : SdWorld) (port val : Nat) : SdWorld :=
  let st := w.state
  if port = SD_CMD_PORT then
    handle_command w val
  else if port = SD_DATA_PORT then
    match st.file with
    | some f =>
        match writeAll1 f val with
        | some f2 => { w with state := { st with file := some f2 } }
        | none => w
    | none => w
  else if port = SD_FNAME_PORT then
    if val = 0 then
      { w with state := { st with filename_pos := 0 } }
    else
      { w with state := { st with filename := st.filename ++ [val],
                                  filename_pos := st.filename_pos + 1 } }
  else if port = SD_SEEK_LO then
    { w with state := { st with seek_pos := (st.seek_pos &&& 0xFFFF00) ||| val } }
  else if port = SD_SEEK_HI then
    { w with state := { st with seek_pos := (st.seek_pos &&& 0xFF00FF) ||| (val <<< 8) } }
  else if port = SD_SEEK_EX then
    { w with state := { st with seek_pos := (st.seek_pos &&& 0x00FFFF) ||| (val <<< 16) } }
  else if port = SD_DMA_LO then
    { w with state := { st with dma_addr := (st.dma_addr &&& 0xFF00) ||| val } }
  else if port = SD_DMA_HI then
    { w with state := { st with dma_addr := (st.dma_addr &&& 0x00FF) ||| (val <<< 8) } }
  else if port = SD_BLOCK_CMD then
    if val = 0 then do_block_read w else do_block_write w
  else w

/-- One guest-visible port access. -/
inductive SdOp where
  | rd (port : Nat)
  | wr (port : Nat) (val : Nat)

def applyOp (w : SdWorld) : SdOp → SdWorld
  | .rd p => (read_port w p).2
  | .wr p v => write_port w p v

def applyOps (w : SdWorld) : List SdOp → SdWorld
  | [] => w
  | op :: rest => applyOps (applyOp w op) rest

/-! Concrete artefacts used by the claim theorems. -/

/-- A readable, non-writable one-byte file handle, as produced by open-read. -/
def fileRO : SdFile := ⟨[65], 0, true, false⟩

/-- A world in which a file is currently open and the host root is empty. -/
def wFileOpen : SdWorld :=
  { state := { SdState.default with file := some fileRO }, fs := [], mem := none }

/-!
Claim C1.
-/

/-- Claim C1 counterexample: with a file open, issuing list-directory does NOT
close that file; afterwards both the open file and the directory enumeration
are active at once, so the claimed mutual exclusion of OpenTarget fails. -/
theorem C1_counterexample :
    ((write_port wFileOpen SD_CMD_PORT CMD_DIR).state.file.isSome = true) ∧
    ((write_port wFileOpen SD_CMD_PORT CMD_DIR).state.dir.isSome = true) :=
  ⟨rfl, rfl⟩

/-- Claim C1 (amended): each opening command retires only a previous target of
its own kind: open-read, create, open-append and open-read-write leave an
active directory enumeration untouched, and list-directory leaves an open file
untouched, so a file and an enumeration can be active simultaneously. -/
theorem C1_amended (w : SdWorld) :
    (handle_command w CMD_OPEN_READ).state.dir = w.state.dir ∧
    (handle_command w CMD_CREATE).state.dir = w.state.dir ∧
    (handle_command w CMD_OPEN_APPEND).state.dir = w.state.dir ∧
    (handle_command w CMD_OPEN_RW).state.dir = w.state.dir ∧
    (handle_command w CMD_DIR).state.file = w.state.file := by
  refine ⟨?_, rfl, ?_, ?_, rfl⟩ <;>
    · unfold handle_command
      simp only [CMD_OPEN_READ, CMD_CREATE, CMD_OPEN_APPEND, CMD_SEEK_START, CMD_CLOSE,
        CMD_DIR, CMD_OPEN_RW, CMD_SEEK_BYTE, CMD_SEEK_16]
      norm_num
      split <;> rfl

/-!
Claim C2.
-/

/-- A world after: filename byte 65, filename terminator, create command, one
data-port write of byte 171, then seek-to-start. -/
def wC2 : SdWorld :=
  write_port
    (write_port
      (write_port
        (write_port
          (write_port (initWorld [] none) SD_FNAME_PORT 65)
          SD_FNAME_PORT 0)
        SD_CMD_PORT CMD_CREATE)
      SD_DATA_PORT 171)
    SD_CMD_PORT CMD_SEEK_START

/-- Claim C2 evaluated at its failing input: after create, one data-port write
of byte 171 and seek-to-start, the handle does hold the written byte but was
opened write-only (File::create), so the first data-port read fails, returns 0
instead of 171, and retires the file. -/
theorem C2_create_readback :
    wC2.state.file = some ⟨[171], 0, false, true⟩ ∧
    (read_port wC2 SD_DATA_PORT).1 = 0 ∧
    (read_port wC2 SD_DATA_PORT).2.state.file = none ∧
    (read_port wC2 SD_DATA_PORT).2.state.status = STATUS_READY :=
  ⟨rfl, rfl, rfl, rfl⟩

/-!
Claim C3.
-/

/-- Claim C3 counterexample: writing byte 65, then the zero terminator, then
byte 66 to the filename port yields the filename 65,66 and not the fresh
filename 66 alone, so the bytes before the terminator do remain as a prefix. -/
theorem C3_counterexample :
    (write_port
      (write_port
        (write_port (initWorld [] none) SD_FNAME_PORT 65)
        SD_FNAME_PORT 0)
      SD_FNAME_PORT 66).state.filename = [65, 66] ∧
    (write_port
      (write_port
        (write_port (initWorld [] none) SD_FNAME_PORT 65)
        SD_FNAME_PORT 0)
      SD_FNAME_PORT 66).state.filename ≠ [66] :=
  ⟨rfl, by decide⟩

/-- Claim C3 (amended): the zero terminator only resets the internal position
counter and leaves the accumulated filename bytes in place; any nonzero byte is
appended to the existing accumulation; a fresh filename therefore requires a
consuming command, not a terminator. -/
theorem C3_amended (w : SdWorld) (b : Nat) :
    (write_port w SD_FNAME_PORT b).state.filename =
      (if b = 0 then w.state.filename else w.state.filename ++ [b]) ∧
    (write_port w SD_FNAME_PORT 0).state.filename_pos = 0 := by
  constructor
  · unfold write_port
    simp only [SD_CMD_PORT, SD_DATA_PORT, SD_FNAME_PORT]
    norm_num
    split <;> rfl
  · rfl

/-!
Claim C4.
-/

/-- Claim C4: after each of the four commands that consume the pending
filename (open-read, create, open-append, open-read-write), the pending
filename is empty, in the success branch and in the failure branch alike. -/
theorem C4_filename_cleared (w : SdWorld) :
    (handle_command w CMD_OPEN_READ).state.filename = [] ∧
    (handle_command w CMD_CREATE).state.filename = [] ∧
    (handle_command w CMD_OPEN_APPEND).state.filename = [] ∧
    (handle_command w CMD_OPEN_RW).state.filename = [] := by
  refine ⟨?_, rfl, ?_, ?_⟩ <;>
    · unfold handle_command
      simp only [CMD_OPEN_READ, CMD_CREATE, CMD_OPEN_APPEND, CMD_SEEK_START, CMD_CLOSE,
        CMD_DIR, CMD_OPEN_RW, CMD_SEEK_BYTE, CMD_SEEK_16]
      norm_num
      split <;> rfl

/-!
Claim C5.
-/

/-- Claim C5: a data-port read on an open file whose stream is exhausted
returns the byte 0, retires the file to Closed, and sets the status register to
exactly READY, so READY is set and ERROR is clear. -/
theorem C5_eof_read (w : SdWorld) (f : SdFile)
    (hf : w.state.file = some f) (heof : f.content.length ≤ f.pos) :
    (read_port w SD_DATA_PORT).1 = 0 ∧
    (read_port w SD_DATA_PORT).2.state.file = none ∧
    (read_port w SD_DATA_PORT).2.state.status = STATUS_READY ∧
    (read_port w SD_DATA_PORT).2.state.status.testBit 0 = true ∧
    (read_port w SD_DATA_PORT).2.state.status.testBit 1 = false := by
  have hre : readExact1 f = none := by
    unfold readExact1
    rw [if_neg]
    rintro ⟨_, hlt⟩
    omega
  simp only [read_port, SD_STATUS_PORT, SD_DATA_PORT, hf, hre]
  norm_num
  and_intros <;> rfl

/-- An exhausted readable file handle. -/
def fileEmpty : SdFile := ⟨[], 0, true, false⟩

/-- A world holding an open file whose stream is already exhausted. -/
def wEof : SdWorld :=
  { state := { SdState.default with file := some fileEmpty }, fs := [], mem := none }

/-- Claim C5 witness at a concrete exhausted file. -/
theorem C5_eof_read_witness :
    (read_port wEof SD_DATA_PORT).1 = 0 ∧
    (read_port wEof SD_DATA_PORT).2.state.file = none ∧
    (read_port wEof SD_DATA_PORT).2.state.status = STATUS_READY ∧
    (read_port wEof SD_DATA_PORT).2.state.status.testBit 0 = true ∧
    (read_port wEof SD_DATA_PORT).2.state.status.testBit 1 = false :=
  C5_eof_read wEof fileEmpty rfl (Nat.le_refl 0)

/-!
Claim C6.
-/

/-- Claim C6: a block command (read trigger 0 or write trigger nonzero) issued
with no guest memory accessor bound or no file open sets BlockStatus to error
and changes nothing else: the rest of the peripheral state, the guest memory
and the host filesystem are untouched. -/
theorem C6_block_precondition (w : SdWorld) (v : Nat)
    (h : w.mem = none ∨ w.state.file = none) :
    (write_port w SD_BLOCK_CMD v).state = { w.state with block_status := 1 } ∧
    (write_port w SD_BLOCK_CMD v).mem = w.mem ∧
    (write_port w SD_BLOCK_CMD v).fs = w.fs := by
  unfold write_port
  simp only [SD_CMD_PORT, SD_DATA_PORT, SD_FNAME_PORT, SD_SEEK_LO, SD_SEEK_HI,
    SD_SEEK_EX, SD_DMA_LO, SD_DMA_HI, SD_BLOCK_CMD]
  norm_num
  rcases h with h | h
  · by_cases hv : v = 0 <;> simp [hv, do_block_read, do_block_write, h]
  · rcases hm : w.mem with _ | m <;> by_cases hv : v = 0 <;>
      simp [hv, do_block_read, do_block_write, hm, h]

/-- Claim C6 witness: block-read attempted in a world with a file open but no
memory accessor bound. -/
theorem C6_block_precondition_witness :
    (write_port wFileOpen SD_BLOCK_CMD 0).state = { wFileOpen.state with block_status := 1 } ∧
    (write_port wFileOpen SD_BLOCK_CMD 0).mem = wFileOpen.mem ∧
    (write_port wFileOpen SD_BLOCK_CMD 0).fs = wFileOpen.fs :=
  C6_block_precondition wFileOpen 0 (Or.inl rfl)

/-! Helper lemmas about the DMA loops. -/

theorem readMemBytes_length (m : Nat → Nat) (a n : Nat) :
    (readMemBytes m a n).length = n := by
  induction n generalizing a with
  | zero => rfl
  | succ k ih => simp [readMemBytes, ih]

theorem readMemBytes_getD (m : Nat → Nat) (a n i : Nat) (hi : i < n) :
    (readMemBytes m a n).getD i 0 =
      if a + i < 0x10000 then m (a + i) % 256 else 0 := by
  induction n generalizing a i with
  | zero => omega
  | succ k ih =>
      cases i with
      | zero => simp [readMemBytes]
      | succ j =>
          have := ih (a + 1) j (by omega)
          simpa [readMemBytes, Nat.add_assoc, Nat.add_comm 1 j] using this

theorem writeMemBytes_getD_out (m : Nat → Nat) (a : Nat) (l : List Nat) (x : Nat)
    (hx : x < a ∨ a + l.length ≤ x ∨ 0x10000 ≤ x) :
    writeMemBytes m a l x = m x := by
  induction l generalizing m a with
  | nil => rfl
  | cons b rest ih =>
      have hx2 : x < a + 1 ∨ (a + 1) + rest.length ≤ x ∨ 0x10000 ≤ x := by
        rcases hx with h | h | h
        · omega
        · simp only [List.length_cons] at h; omega
        · omega
      rw [writeMemBytes, ih _ _ hx2]
      split
      · next ha =>
          have hxa : x ≠ a := by
            rcases hx with h | h | h
            · omega
            · simp only [List.length_cons] at h; omega
            · omega
          simp [memW8, hxa]
      · rfl

theorem writeMemBytes_getD_in (m : Nat → Nat) (a : Nat) (l : List Nat) (x : Nat)
    (h1 : a ≤ x) (h2 : x < a + l.length) (h3 : x < 0x10000) :
    writeMemBytes m a l x = l.getD (x - a) 0 := by
  induction l generalizing m a with
  | nil => simp at h2; omega
  | cons b rest ih =>
      rcases Nat.eq_or_lt_of_le h1 with he | hlt
      · subst he
        rw [writeMemBytes, writeMemBytes_getD_out]
        · rw [if_pos h3]
          simp [memW8]
        · left; omega
      · have := ih (if a < 0x10000 then memW8 m a b else m) (a + 1)
          (by omega) (by simp only [List.length_cons] at h2 ⊢; omega)
        rw [writeMemBytes, this]
        have hxa : x - a = (x - (a + 1)) + 1 := by omega
        rw [hxa]
        rfl

/-- The 128-byte buffer assembled by do_block_read (content bytes from the
cursor, zero-padded) always has length exactly BLOCK_SIZE. -/
theorem blockBuffer_length (l : List Nat) (p : Nat) :
    ((l.drop p).take BLOCK_SIZE ++
      List.replicate (BLOCK_SIZE - ((l.drop p).take BLOCK_SIZE).length) 0).length
      = BLOCK_SIZE := by
  simp [List.length_take, List.length_drop, BLOCK_SIZE]

/-!
Claim C7.
-/

/-- Claim C7: a block-read with a memory accessor bound and a readable file
open succeeds (BlockStatus 0) even when zero bytes were available, advances the
file cursor by the number of bytes actually read, and stores into guest memory
the up-to-128 content bytes zero-padded to a full 128-byte block at DmaWindow,
where the store loop skips addresses at or beyond 0x10000; the status register
is untouched. -/
theorem C7_block_read (w : SdWorld) (m : Nat → Nat) (f : SdFile)
    (hm : w.mem = some m) (hf : w.state.file = some f) (hr : f.readable = true) :
    (write_port w SD_BLOCK_CMD 0).state.block_status = 0 ∧
    (write_port w SD_BLOCK_CMD 0).state.file =
      some { f with pos := f.pos + min BLOCK_SIZE (f.content.length - f.pos) } ∧
    (write_port w SD_BLOCK_CMD 0).mem =
      some (writeMemBytes m w.state.dma_addr
        ((f.content.drop f.pos).take BLOCK_SIZE ++
          List.replicate (BLOCK_SIZE - ((f.content.drop f.pos).take BLOCK_SIZE).length) 0)) ∧
    ((f.content.drop f.pos).take BLOCK_SIZE ++
      List.replicate (BLOCK_SIZE - ((f.content.drop f.pos).take BLOCK_SIZE).length) 0).length
      = BLOCK_SIZE ∧
    (write_port w SD_BLOCK_CMD 0).state.status = w.state.status := by
  have hfr : fileReadBlock f =
      some ((f.content.drop f.pos).take BLOCK_SIZE,
            { f with pos := f.pos + min BLOCK_SIZE (f.content.length - f.pos) }) := by
    unfold fileReadBlock
    rw [if_pos hr]
  simp only [write_port, SD_CMD_PORT, SD_DATA_PORT, SD_FNAME_PORT, SD_SEEK_LO, SD_SEEK_HI,
    SD_SEEK_EX, SD_DMA_LO, SD_DMA_HI, SD_BLOCK_CMD, do_block_read, hm, hf, hfr]
  norm_num

/-- Guest memory in which every byte reads as zero. -/
def memZero : Nat → Nat := fun _ => 0

/-- A readable two-byte file at cursor 0. -/
def fileC7 : SdFile := ⟨[5, 6], 0, true, false⟩

/-- A world with memory bound and fileC7 open. -/
def wC7 : SdWorld :=
  { state := { SdState.default with file := some fileC7 }, fs := [], mem := some memZero }

/-- Claim C7 witness at a concrete two-byte file. -/
theorem C7_block_read_witness :
    (write_port wC7 SD_BLOCK_CMD 0).state.block_status = 0 ∧
    (write_port wC7 SD_BLOCK_CMD 0).state.file =
      some { fileC7 with pos := fileC7.pos + min BLOCK_SIZE (fileC7.content.length - fileC7.pos) } ∧
    (write_port wC7 SD_BLOCK_CMD 0).mem =
      some (writeMemBytes memZero wC7.state.dma_addr
        ((fileC7.content.drop fileC7.pos).take BLOCK_SIZE ++
          List.replicate (BLOCK_SIZE - ((fileC7.content.drop fileC7.pos).take BLOCK_SIZE).length) 0)) ∧
    ((fileC7.content.drop fileC7.pos).take BLOCK_SIZE ++
      List.replicate (BLOCK_SIZE - ((fileC7.content.drop fileC7.pos).take BLOCK_SIZE).length) 0).length
      = BLOCK_SIZE ∧
    (write_port wC7 SD_BLOCK_CMD 0).state.status = wC7.state.status :=
  C7_block_read wC7 memZero fileC7 rfl rfl rfl

/-!
Claim C8.
-/

/-- A world with memory bound and the read-only file fileRO open. -/
def wC8 : SdWorld :=
  { state := { SdState.default with file := some fileRO }, fs := [], mem := some memZero }

/-- Claim C8 counterexample: a block-write performed with a memory accessor
bound and a file open, where the file handle is read-only (opened by
open-read): the host write fails, the file content stays at its single byte
instead of receiving 128 bytes, and BlockStatus reports error. -/
theorem C8_counterexample :
    (write_port wC8 SD_BLOCK_CMD 1).state.file = some fileRO ∧
    (write_port wC8 SD_BLOCK_CMD 1).state.block_status = 1 ∧
    fileRO.content.length = 1 :=
  ⟨rfl, rfl, rfl⟩

/-- Claim C8 (amended): a block-write with a memory accessor bound and an open
file whose handle is writable writes exactly 128 bytes to the file at its
current position, the bytes being the guest window at DmaWindow where the load
loop contributes a zero for every address at or beyond 0x10000; if the handle
is not writable the host write fails, BlockStatus is error and the file is
unchanged (counterexample above). -/
theorem C8_block_write (w : SdWorld) (v : Nat) (m : Nat → Nat) (f : SdFile)
    (hv : v ≠ 0) (hm : w.mem = some m) (hf : w.state.file = some f)
    (hw : f.writable = true) :
    (write_port w SD_BLOCK_CMD v).state.file =
      some { f with
               content := listWriteBytes f.content f.pos
                 (readMemBytes m w.state.dma_addr BLOCK_SIZE),
               pos := f.pos + BLOCK_SIZE } ∧
    (write_port w SD_BLOCK_CMD v).state.block_status = 0 ∧
    (readMemBytes m w.state.dma_addr BLOCK_SIZE).length = BLOCK_SIZE ∧
    (write_port w SD_BLOCK_CMD v).mem = w.mem ∧
    (write_port w SD_BLOCK_CMD v).state.status = w.state.status := by
  have hfw : fileWriteBlock f (readMemBytes m w.state.dma_addr BLOCK_SIZE) =
      some { f with
               content := listWriteBytes f.content f.pos
                 (readMemBytes m w.state.dma_addr BLOCK_SIZE),
               pos := f.pos + BLOCK_SIZE } := by
    unfold fileWriteBlock
    rw [if_pos hw, readMemBytes_length]
  simp only [write_port, SD_CMD_PORT, SD_DATA_PORT, SD_FNAME_PORT, SD_SEEK_LO, SD_SEEK_HI,
    SD_SEEK_EX, SD_DMA_LO, SD_DMA_HI, SD_BLOCK_CMD, do_block_write, hm, hf, hfw, hv,
    if_neg hv]
  norm_num
  exact readMemBytes_length m w.state.dma_addr BLOCK_SIZE

/-- A writable empty file handle, as produced by create. -/
def fileRW : SdFile := ⟨[], 0, false, true⟩

/-- A world with memory bound and the writable file fileRW open. -/
def wC8w : SdWorld :=
  { state := { SdState.default with file := some fileRW }, fs := [], mem := some memZero }

/-- Claim C8 witness at a concrete writable file. -/
theorem C8_block_write_witness :
    (write_port wC8w SD_BLOCK_CMD 1).state.file =
      some { fileRW with
               content := listWriteBytes fileRW.content fileRW.pos
                 (readMemBytes memZero wC8w.state.dma_addr BLOCK_SIZE),
               pos := fileRW.pos + BLOCK_SIZE } ∧
    (write_port wC8w SD_BLOCK_CMD 1).state.block_status = 0 ∧
    (readMemBytes memZero wC8w.state.dma_addr BLOCK_SIZE).length = BLOCK_SIZE ∧
    (write_port wC8w SD_BLOCK_CMD 1).mem = wC8w.mem ∧
    (write_port wC8w SD_BLOCK_CMD 1).state.status = wC8w.state.status :=
  C8_block_write wC8w 1 memZero fileRW (by decide) rfl rfl rfl

/-!
Claim C9.
-/

/-- Claim C9 counterexample: a data-port write with a file open whose handle is
read-only (opened by open-read) is discarded: the file keeps its original
single byte, so the byte is not written even though a file is open. -/
theorem C9_counterexample :
    (write_port wFileOpen SD_DATA_PORT 5).state.file = some fileRO ∧
    fileRO.content = [65] :=
  ⟨rfl, rfl⟩

/-- Claim C9 (amended): a data-port write writes the byte at the current
position of the open file when that file is open and its handle is writable,
and is discarded when no file is open or the handle is not writable; in all
cases the status register and every other piece of peripheral state, the guest
memory and the host filesystem are unchanged. -/
theorem C9_data_write (w : SdWorld) (v : Nat) :
    (write_port w SD_DATA_PORT v).state =
      { w.state with
          file := w.state.file.map (fun f =>
            if f.writable = true then
              { f with content := listWriteByte f.content f.pos v, pos := f.pos + 1 }
            else f) } ∧
    (write_port w SD_DATA_PORT v).mem = w.mem ∧
    (write_port w SD_DATA_PORT v).fs = w.fs := by
  obtain ⟨st, fs, mem⟩ := w
  obtain ⟨fn, fnp, file, stt, dir, de, dep, sp, da, bs⟩ := st
  cases file with
  | none => exact ⟨rfl, rfl, rfl⟩
  | some f =>
      cases hfw : f.writable <;>
        simp [write_port, writeAll1, hfw, SD_CMD_PORT, SD_DATA_PORT]

/-!
Claim C10.
-/

/-- Every command either leaves the internal status register alone or sets it
to READY or to ERROR with READY. -/
theorem handle_command_status (w : SdWorld) (cmd : Nat) :
    (handle_command w cmd).state.status = w.state.status ∨
    (handle_command w cmd).state.status = STATUS_READY ∨
    (handle_command w cmd).state.status = STATUS_ERROR ||| STATUS_READY := by
  obtain ⟨⟨fn, fnp, file, stt, dir, de, dep, sp, da, bs⟩, fs, mem⟩ := w
  unfold handle_command
  repeat' split
  all_goals try (cases hq : fsLookup fs fn)
  all_goals try (cases hq2 : file)
  all_goals simp [hq, hq2]

theorem do_block_read_status (w : SdWorld) :
    (do_block_read w).state.status = w.state.status := by
  unfold do_block_read
  repeat' split
  all_goals rfl

theorem do_block_write_status (w : SdWorld) :
    (do_block_write w).state.status = w.state.status := by
  unfold do_block_write
  repeat' split
  all_goals rfl

theorem read_port_status (w : SdWorld) (p : Nat) :
    ((read_port w p).2).state.status = w.state.status ∨
    ((read_port w p).2).state.status = STATUS_READY := by
  unfold read_port
  repeat' split
  all_goals try simp
  rcases hf : w.state.file with _ | f
  · rcases hd : w.state.dir with _ | entries
    · simp [hf, hd]
    · simp only [hf, hd]
      split
      · rcases hn : dirNextEntry entries with _ | ⟨name, rest⟩ <;> simp [hn]
      · simp
  · rcases hre : readExact1 f with _ | ⟨b, f2⟩ <;> simp [hf, hre]

theorem write_port_status (w : SdWorld) (p v : Nat) :
    (write_port w p v).state.status = w.state.status ∨
    (write_port w p v).state.status = STATUS_READY ∨
    (write_port w p v).state.status = STATUS_ERROR ||| STATUS_READY := by
  unfold write_port
  repeat' split
  all_goals try exact handle_command_status w v
  all_goals try (rw [do_block_read_status]; simp)
  all_goals try (rw [do_block_write_status]; simp)
  all_goals try (left; rfl)
  rcases hf : w.state.file with _ | f
  · simp [hf]
  · rcases hw : writeAll1 f v with _ | f2 <;> simp [hf, hw]

theorem applyOp_status (w : SdWorld) (op : SdOp) :
    (applyOp w op).state.status = w.state.status ∨
    (applyOp w op).state.status = STATUS_READY ∨
    (applyOp w op).state.status = STATUS_ERROR ||| STATUS_READY := by
  cases op with
  | rd p =>
      rcases read_port_status w p with h | h
      · exact Or.inl h
      · exact Or.inr (Or.inl h)
  | wr p v => exact write_port_status w p v

/-- Bit 0 of the internal status register is preserved by every port access. -/
theorem applyOps_status_testBit (w : SdWorld) (ops : List SdOp)
    (h : w.state.status.testBit 0 = true) :
    (applyOps w ops).state.status.testBit 0 = true := by
  induction ops generalizing w with
  | nil => exact h
  | cons op rest ih =>
      apply ih
      rcases applyOp_status w op with h1 | h1 | h1
      · rw [h1]; exact h
      · rw [h1]; decide
      · rw [h1]; decide

/-- Claim C10: in every state reachable from initialization by port reads and
writes, bit 0 (READY) of the internal status register is set, and every read of
the status port returns a byte whose bit 0 equals 1. -/
theorem C10_ready_invariant (fs : List (List Nat × List Nat)) (mem : Option (Nat → Nat))
    (ops : List SdOp) :
    ((applyOps (initWorld fs mem) ops).state.status).testBit 0 = true ∧
    ((read_port (applyOps (initWorld fs mem) ops) SD_STATUS_PORT).1).testBit 0 = true := by
  have h := applyOps_status_testBit (initWorld fs mem) ops
    (show Nat.testBit 1 0 = true by decide)
  refine ⟨h, ?_⟩
  have h2 : (applyOps (initWorld fs mem) ops).state.status % 2 = 1 :=
    Nat.mod_two_eq_one_iff_testBit_zero.mpr h
  unfold read_port
  simp only [SD_STATUS_PORT]
  norm_num
  left
  exact h2

end RetroSd
